import Mathlib

/-!
Shallow embedding of the asset-catalog server in src/server.py (Screenly OSE),
covering the API handlers the verified claims talk about: prepare_asset,
Assets.post (create), Asset.delete, FileAsset.post (chunked upload),
Recover.post, PlaylistOrder/AssetsControl, plus the helper semantics they rely
on.  Python machine behaviour (string methods, int(), os.path.join, append-mode
file writes, mimetypes.guess_type) is translated explicitly; library code of
this repository that is not under src/ (lib/assets_helper, lib/backup_helper,
lib/utils, the ZmqPublisher from settings) is either modelled from the spec or
abstracted into oracle fields of an environment record.
-/

/-- The subset of parsed JSON request values the handlers distinguish:
strings and integers (the duration / flag fields may arrive as either). -/
inductive PyVal
  | pstr (s : String)
  | pint (n : Int)
  deriving DecidableEq

/-- The whitespace characters str.strip() removes (ASCII range). -/
def isSpaceChar (c : Char) : Bool :=
  c = ' ' || c = '\t' || c = '\n' || c = '\r' || c = '\x0b' || c = '\x0c'

/-- Python `s.strip()`: drop leading and trailing whitespace. -/
def pyStrip (s : String) : String :=
  String.mk (((s.data.dropWhile isSpaceChar).reverse.dropWhile isSpaceChar).reverse)

/-- Test that `pre` is a leading segment of `cs` (structural startswith). -/
def listIsInit : List Char → List Char → Bool
  | [], _ => true
  | _ :: _, [] => false
  | p :: ps, c :: cs => p = c && listIsInit ps cs

/-- Python `s.startswith(pre)`. -/
def pyStartsWith (s pre : String) : Bool :=
  listIsInit pre.data s.data

/-- Python `s.endswith(suf)`. -/
def pyEndsWith (s suf : String) : Bool :=
  listIsInit suf.data.reverse s.data.reverse

def listContainsSub : List Char → List Char → Bool
  | cs, sub =>
    listIsInit sub cs ||
      (match cs with
       | [] => false
       | _ :: t => listContainsSub t sub)

/-- Python substring test `sub in s`. -/
def strContains (s sub : String) : Bool :=
  listContainsSub s.data sub.data

/-- Python `s.split(sep)` for a one-character separator, keeping empty
parts (both separators the upload handler splits on are one character). -/
def splitChar (sep : Char) : List Char → List (List Char)
  | [] => [[]]
  | c :: rest =>
    let r := splitChar sep rest
    if c = sep then [] :: r
    else
      match r with
      | h :: t => (c :: h) :: t
      | [] => [[c]]

/-- ASCII lowercase of one character (Python str.lower on extensions). -/
def charLower (c : Char) : Char :=
  if 'A' ≤ c && c ≤ 'Z' then Char.ofNat (c.toNat + 32) else c

/-- Python `s.lower()`. -/
def strLower (s : String) : String :=
  String.mk (s.data.map charLower)

/-- Python `os.path.join(a, b)` (posixpath) for two components. -/
def pyPathJoin (a b : String) : String :=
  if pyStartsWith b "/" then b
  else if a = "" || pyEndsWith a "/" then a ++ b
  else a ++ "/" ++ b

/-- Digits-only parse of a nonempty decimal digit list (helper for `int()`). -/
def parseNatDigits (cs : List Char) : Option Nat :=
  if cs = [] then none
  else if cs.all Char.isDigit then
    some (cs.foldl (fun a c => 10 * a + (c.toNat - 48)) 0)
  else none

/-- Python `int(s)` on a string: strips whitespace, accepts an optional sign
followed by decimal digits, raises ValueError otherwise. -/
def parseIntStr (s : String) : Option Int :=
  match (pyStrip s).data with
  | '-' :: rest => (parseNatDigits rest).map (fun n => -(n : Int))
  | '+' :: rest => (parseNatDigits rest).map (fun n => (n : Int))
  | cs => (parseNatDigits cs).map (fun n => (n : Int))

/-- Python `int(v)` on the request values the handlers feed it:
identity on integers, string parse (ValueError on failure) on strings. -/
def pyInt : PyVal → Except String Int
  | PyVal.pint n => Except.ok n
  | PyVal.pstr s =>
    match parseIntStr s with
    | some n => Except.ok n
    | none => Except.error "ValueError: invalid literal for int()"

/-- The `get(key)` accessor of prepare_asset for fields used as strings:
a missing key yields the empty string, a present value is stripped. -/
def getS : Option String → String
  | none => ""
  | some s => pyStrip s

/-- The `get(key)` accessor of prepare_asset for fields kept as request
values: a missing key yields the empty string, string values are stripped,
other values pass through. -/
def getV : Option PyVal → PyVal
  | none => PyVal.pstr ""
  | some (PyVal.pstr s) => PyVal.pstr (pyStrip s)
  | some v => v

/-- A naive-or-aware datetime as produced by dateutil: calendar fields plus
an optional UTC-offset (minutes); `tz = none` is a naive datetime. -/
structure PyDateTime where
  year : Nat
  month : Nat
  day : Nat
  hour : Nat
  minute : Nat
  second : Nat
  tz : Option Int
  deriving DecidableEq

/-- Python `dt.replace(tzinfo=None)`: strip the timezone information. -/
def stripTz (d : PyDateTime) : PyDateTime :=
  { d with tz := none }

/-- A stored date field of an asset record: prepare_asset always assigns the
key, either a parsed datetime or the empty-string sentinel. -/
inductive DateField
  | dt (d : PyDateTime)
  | blank
  deriving DecidableEq

/-- The server-visible filesystem, as an association list from absolute paths
to byte contents. -/
abbrev FS : Type := List (String × List Nat)

def fsLookup (fs : FS) (p : String) : Option (List Nat) :=
  (fs.find? (fun e => e.1 = p)).map (fun e => e.2)

def fsIsFile (fs : FS) (p : String) : Bool :=
  (fsLookup fs p).isSome

/-- Python `os.remove` followed by `except OSError: pass`: erase the entry if it is
there, do nothing (no error) if it is not. -/
def fsRemove (fs : FS) (p : String) : FS :=
  fs.filter (fun e => e.1 ≠ p)

/-- Create or overwrite a file with the given contents. -/
def fsWrite (fs : FS) (p : String) (content : List Nat) : FS :=
  fsRemove fs p ++ [(p, content)]

/-- Python `os.rename(old, new)`; in prepare_asset it is only reached after the
existence check on `old` succeeded, so the missing-source case is inert. -/
def fsRename (fs : FS) (old new : String) : FS :=
  match fsLookup fs old with
  | some c => fsWrite (fsRemove fs old) new c
  | none => fs

/-- The prepared asset record returned by prepare_asset; `duration = none`
models the dictionary key being left unset (the video branch with a nonzero
caller duration assigns nothing). -/
structure PreparedAsset where
  name : String
  mimetype : String
  asset_id : String
  uri : String
  is_enabled : PyVal
  is_processing : PyVal
  nocache : PyVal
  duration : Option Int
  start_date : DateField
  end_date : DateField
  deriving DecidableEq

/-- Server state: the filesystem, the persisted catalog (modelled from the
spec as a collection keyed by asset_id, since lib/assets_helper is not under
src/), and the playback-control channel (the sequence of commands handed to
the process-wide publisher, modelled from the spec since the ZmqPublisher
lives in the settings module, also not under src/). -/
structure ServerState where
  fs : FS
  catalog : List PreparedAsset
  channel : List String
  deriving DecidableEq

/-- Environment of oracle functions for code the handlers call that is not
part of src/server.py: lib/utils helpers, dateutil, the ffprobe-style video
probe (as a total duration in milliseconds), the youtube downloader, the
backup_helper.recover effect, and the random 128-bit value drawn by
uuid.uuid4() for this request. -/
structure Env where
  assetdir : String
  validate_url : String → Bool
  url_fails : String → Bool
  video_duration_ms : String → Nat
  parse_date : String → Option PyDateTime
  youtube : String → String → String × String × Int
  recover : String → ServerState → ServerState
  fresh_uuid : Nat

/-- Hex digit characters, used to state that uuid hex strings are hex. -/
def isHexCharB (c : Char) : Bool :=
  c.isDigit || ('a' ≤ c && c ≤ 'f')

/-- Python `uuid.uuid4().hex`: the 128-bit random value printed as 32 lowercase hex
digits, most significant nibble first. -/
def uuidHex (n : Nat) : String :=
  String.mk ((List.range 32).map (fun i => Nat.digitChar (n / 16 ^ (31 - i) % 16)))

/-- server.py lines 193-198: a uri beginning with a slash is treated as a
local file path and must exist; any other uri is validated as a URL. -/
def validate_uri (env : Env) (fs : FS) (uri : String) : Except String Unit :=
  if pyStartsWith uri "/" then
    if fsIsFile fs uri then Except.ok ()
    else Except.error "Invalid file path. Failed to add asset."
  else
    if env.validate_url uri then Except.ok ()
    else Except.error "Invalid URL. Failed to add asset."

/-- server.py lines 200-204: an empty asset_id is replaced by a fresh
uuid4 hex; when the uri is a local path the file is renamed into the managed
media directory under the new id and the uri is updated to the new path.
Returns (asset_id, uri, filesystem). -/
def assign_asset_id (env : Env) (fs : FS) (aid0 uri : String) :
    String × String × FS :=
  if aid0 = "" then
    let nid := uuidHex env.fresh_uuid
    if pyStartsWith uri "/" then
      (nid, pyPathJoin env.assetdir nid, fsRename fs uri (pyPathJoin env.assetdir nid))
    else (nid, uri, fs)
  else (aid0, uri, fs)

/-- Python `int(get_video_duration(uri).total_seconds())`: the probed duration in
milliseconds truncated to whole seconds (int() truncates toward zero and the
value is nonnegative, so this is rounding down). -/
def videoProbeSeconds (env : Env) (uri : String) : Int :=
  Int.ofNat (env.video_duration_ms uri / 1000)

/-- server.py lines 213-218: for a video mimetype, probe the media file when
the caller duration is the sentinel N/A or parses by int() to 0 (int() raising
propagates as an error); otherwise leave whatever duration is already in the
dictionary (none unless the youtube branch set one).  For any other mimetype
the caller duration must parse by int(). -/
def durationStep (env : Env) (mimetype uri : String) (dreq : Option PyVal)
    (dur0 : Option Int) : Except String (Option Int) :=
  if strContains mimetype "video" then
    if getV dreq = PyVal.pstr "N/A" then
      Except.ok (some (videoProbeSeconds env uri))
    else
      match pyInt (getV dreq) with
      | Except.error e => Except.error e
      | Except.ok n =>
        if n = 0 then Except.ok (some (videoProbeSeconds env uri))
        else Except.ok dur0
  else
    match pyInt (getV dreq) with
    | Except.error e => Except.error e
    | Except.ok n => Except.ok (some n)

/-- server.py lines 220-229 (one date field): a nonempty value is parsed by
dateutil (failure raises) and stored with its timezone stripped; an empty or
absent value is stored as the empty-string sentinel. -/
def dateStep (env : Env) (field : Option String) : Except String DateField :=
  if getS field = "" then Except.ok DateField.blank
  else
    match env.parse_date (getS field) with
    | some d => Except.ok (DateField.dt (stripTz d))
    | none => Except.error "ValueError: unknown string format"

/-- The incoming create/update request body (fields of the parsed model). -/
structure AssetRequest where
  name : Option String
  uri : Option String
  mimetype : Option String
  asset_id : Option String
  is_enabled : Option PyVal
  is_processing : Option PyVal
  nocache : Option PyVal
  duration : Option PyVal
  start_date : Option String
  end_date : Option String

/-- server.py lines 158-231 (prepare_asset): required-field check, uri
validation, asset_id assignment with the move into the managed directory,
the youtube_asset rewrite, duration resolution and date normalization.
Returns the prepared record (or the raised error) together with the
filesystem, which may have been mutated by the rename even on a later
failure. -/
def prepare_asset (env : Env) (fs : FS) (req : AssetRequest) :
    Except String PreparedAsset × FS :=
  if getS req.name = "" || getS req.uri = "" || getS req.mimetype = "" then
    (Except.error "Not enough information provided. Please specify 'name', 'uri', and 'mimetype'.", fs)
  else
    match validate_uri env fs (getS req.uri) with
    | Except.error e => (Except.error e, fs)
    | Except.ok _ =>
      let step := assign_asset_id env fs (getS req.asset_id) (getS req.uri)
      let aid := step.1
      let uri1 := step.2.1
      let fs1 := step.2.2
      let yt := strContains (getS req.mimetype) "youtube_asset"
      let y := env.youtube uri1 aid
      let uri2 := if yt then y.1 else uri1
      let name2 := if yt then y.2.1 else getS req.name
      let mt2 := if yt then "video" else getS req.mimetype
      let dur0 : Option Int := if yt then some y.2.2 else none
      let proc := if yt then PyVal.pint 1 else getV req.is_processing
      match durationStep env mt2 uri2 req.duration dur0 with
      | Except.error e => (Except.error e, fs1)
      | Except.ok dur =>
        match dateStep env req.start_date with
        | Except.error e => (Except.error e, fs1)
        | Except.ok sd =>
          match dateStep env req.end_date with
          | Except.error e => (Except.error e, fs1)
          | Except.ok ed =>
            (Except.ok { name := name2, mimetype := mt2, asset_id := aid,
                         uri := uri2, is_enabled := getV req.is_enabled,
                         is_processing := proc, nocache := getV req.nocache,
                         duration := dur, start_date := sd, end_date := ed }, fs1)

def isOkB {α : Type} : Except String α → Bool
  | Except.ok _ => true
  | Except.error _ => false

/-- The records a create response persists: one on success, none on error. -/
def createdRecords : Except String PreparedAsset → List PreparedAsset
  | Except.ok a => [a]
  | Except.error _ => []

/-- server.py lines 300-305 (Assets.post): prepare the asset, run the
liveness probe url_fails on the resulting uri, and persist the record
(assets_helper.create, modelled from the spec as appending to the catalog
keyed by asset_id).  On an error the record is not stored, though filesystem
effects of prepare_asset (the rename) persist, as they do in the code. -/
def assetsPost (env : Env) (st : ServerState) (req : AssetRequest) :
    Except String PreparedAsset × ServerState :=
  match prepare_asset env st.fs req with
  | (Except.error e, fs1) => (Except.error e, { st with fs := fs1 })
  | (Except.ok a, fs1) =>
    if env.url_fails a.uri then
      (Except.error "Could not retrieve file. Check the asset URL.", { st with fs := fs1 })
    else
      (Except.ok a, { st with fs := fs1, catalog := st.catalog ++ [a] })

/-- assets_helper.read for a single id (not under src/): modelled from the
spec as lookup in the catalog keyed by asset_id. -/
def catalogRead (catalog : List PreparedAsset) (aid : String) : Option PreparedAsset :=
  catalog.find? (fun a => a.asset_id = aid)

/-- assets_helper.delete (not under src/): modelled from the spec as removal
of the record with the given asset_id. -/
def catalogDelete (catalog : List PreparedAsset) (aid : String) : List PreparedAsset :=
  catalog.filter (fun a => a.asset_id ≠ aid)

/-- server.py lines 389-398 (Asset.delete): read the record; if its uri
starts with the managed media directory, os.remove the file, swallowing
OSError (a missing file is not an error); then delete the record and return
an empty 204 response.  A missing record is a NotFound error (modelled from
the spec, since assets_helper.read is not under src/). -/
def assetDelete (env : Env) (st : ServerState) (aid : String) :
    Except String (String × Nat) × ServerState :=
  match catalogRead st.catalog aid with
  | none => (Except.error "Asset not found.", st)
  | some asset =>
    let fs1 := if pyStartsWith asset.uri env.assetdir then fsRemove st.fs asset.uri else st.fs
    (Except.ok ("", 204), { st with fs := fs1, catalog := catalogDelete st.catalog aid })

/-- Python `int(range_str.split(' ')[1].split('-')[0])` from FileAsset.post: the
declared start offset of a Content-Range header; a malformed header raises
(IndexError or ValueError). -/
def parseContentRangeStart (rs : String) : Except String Int :=
  match (splitChar ' ' rs.data).get? 1 with
  | none => Except.error "IndexError: list index out of range"
  | some part =>
    match parseIntStr (String.mk ((splitChar '-' part).headD [])) with
    | some n => Except.ok n
    | none => Except.error "ValueError: invalid literal for int()"

/-- server.py lines 548-563 (FileAsset.post): the chunked upload handler.
Without a Content-Range header the payload is saved as
`<assetdir>/<filename>.tmp`, overwriting any existing file.  With a
Content-Range header the start offset is parsed and the file is opened in
Python append mode: every write in append mode lands at the current
end-of-file, so the subsequent `f.seek(start_bytes)` does not affect where
the chunk is written and the payload is appended to the existing contents. -/
def fileAssetPost (env : Env) (fs : FS) (filename : String) (payload : List Nat)
    (contentRange : Option String) : Except String String × FS :=
  let file_path := pyPathJoin env.assetdir filename ++ ".tmp"
  match contentRange with
  | some rs =>
    match parseContentRangeStart rs with
    | Except.error e => (Except.error e, fs)
    | Except.ok _ =>
      let old := (fsLookup fs file_path).getD []
      (Except.ok file_path, fsWrite fs file_path (old ++ payload))
  | none => (Except.ok file_path, fsWrite fs file_path payload)

/-- server.py lines 711-714 (AssetsControl.get): fetch the process-wide
publisher and send the command to the viewer, then answer with a fixed
success message.  ZmqPublisher (settings module, not under src/) is modelled
from the spec: a single shared channel whose fire-and-forget send always
succeeds, recorded as appending the command to the channel trace. -/
def assetsControlGet (command : String) (st : ServerState) :
    (String × Nat) × ServerState :=
  (("Asset switched", 200), { st with channel := st.channel ++ [command] })

/-- Index of the last occurrence of a character in a character list. -/
def lastIdx (cs : List Char) (c : Char) : Option Nat :=
  (List.range cs.length).foldl
    (fun acc i => if cs.get? i = some c then some i else acc) none

/-- Python `posixpath.splitext`: split off the extension at the last dot of the
final path component, unless every character of that component before the
dot is itself a dot. -/
def splitext (p : String) : String × String :=
  let cs := p.data
  let start := match lastIdx cs '/' with
    | some i => i + 1
    | none => 0
  match lastIdx cs '.' with
  | some d =>
    if start ≤ d && ((cs.drop start).take (d - start)).any (fun c => c ≠ '.') then
      (String.mk (cs.take d), String.mk (cs.drop d))
    else (p, "")
  | none => (p, "")

def lookupStr (m : List (String × String)) (k : String) : Option String :=
  (m.find? (fun e => e.1 = k)).map (fun e => e.2)

/-- mimetypes suffix_map: compound suffixes rewritten before type lookup. -/
def suffix_map : List (String × String) :=
  [(".svgz", ".svg.gz"), (".tgz", ".tar.gz"), (".taz", ".tar.gz"),
   (".tz", ".tar.gz"), (".tbz2", ".tar.bz2"), (".txz", ".tar.xz")]

/-- mimetypes encodings_map: extensions naming an encoding, stripped before
the type lookup. -/
def encodings_map : List (String × String) :=
  [(".gz", "gzip"), (".Z", "compress"), (".bz2", "bzip2"), (".xz", "xz")]

/-- The fragment of the mimetypes extension-to-type table relevant here (the
handler only compares the result against application/x-tar). -/
def types_map : List (String × String) :=
  [(".tar", "application/x-tar"), (".zip", "application/zip"),
   (".txt", "text/plain"), (".png", "image/png"), (".html", "text/html"),
   (".json", "application/json"), (".db", "application/octet-stream")]

def suffixLoop : Nat → String × String → String × String
  | 0, be => be
  | fuel + 1, (base, ext) =>
    match lookupStr suffix_map ext with
    | some rep => suffixLoop fuel (splitext (base ++ rep))
    | none => (base, ext)

/-- Model of the Python standard library `mimetypes.guess_type` on plain
filenames (no URL scheme handling): resolve compound suffixes, strip a known
encoding extension, then look the extension up in the type table, retrying
lowercased. -/
def guess_type (url : String) : Option String :=
  let be := suffixLoop 8 (splitext url)
  let be2 := if (lookupStr encodings_map be.2).isSome then splitext be.1 else be
  match lookupStr types_map be2.2 with
  | some t => some t
  | none => lookupStr types_map (strLower be2.2)

/-- server.py lines 629-640 (Recover.post): reject the upload outright when
its filename does not carry a tar-archive type, before any file is saved or
any state touched; otherwise save the archive under static/ and run
backup_helper.recover on it (modelled from the spec as an oracle replacing
the catalog state, since backup_helper is not under src/). -/
def recoverPost (env : Env) (st : ServerState) (filename : String)
    (content : List Nat) : Except String String × ServerState :=
  if guess_type filename ≠ some "application/x-tar" then
    (Except.error "Incorrect file extension.", st)
  else
    let location := pyPathJoin "static" filename
    let st1 := { st with fs := fsWrite st.fs location content }
    (Except.ok "Recovery successful.", env.recover location st1)

/-- Modelled from the spec: the is_active derivation lives in
lib/assets_helper, which is not under src/.  Spec: is_active = is_enabled AND
(no window set OR now within [start_date, end_date]); naive timestamps are
modelled as integers and the window counts as set when both bounds are. -/
structure StoredAsset where
  is_enabled : Bool
  start_date : Option Int
  end_date : Option Int
  deriving DecidableEq

/-- Modelled from the spec: the derived is_active flag of a stored asset at
the current time `now`. -/
def is_active (now : Int) (a : StoredAsset) : Bool :=
  a.is_enabled &&
    (match a.start_date, a.end_date with
     | some s, some e => decide (s ≤ now) && decide (now ≤ e)
     | _, _ => true)

/-! ## Concrete fixtures used by witnesses and counterexamples -/

/-- A concrete environment: every URL validates and is live, the video probe
reports 7500 ms, dateutil parses everything except the literal "bad" to an
aware timestamp with a +0 offset, and the request draws the zero uuid. -/
def env0 : Env :=
  { assetdir := "/assets"
    validate_url := fun _ => true
    url_fails := fun _ => false
    video_duration_ms := fun _ => 7500
    parse_date := fun s =>
      if s = "bad" then none else some ⟨2017, 2, 2, 0, 33, 0, some 0⟩
    youtube := fun u _ => (u, "yt", 42)
    recover := fun _ s => s
    fresh_uuid := 0 }

/-- An asset whose uri lies inside the managed media directory. -/
def asset1 : PreparedAsset :=
  { name := "n", mimetype := "image", asset_id := "a1", uri := "/assets/a1",
    is_enabled := PyVal.pint 1, is_processing := PyVal.pstr "",
    nocache := PyVal.pstr "", duration := some 3,
    start_date := DateField.blank, end_date := DateField.blank }

/-- An asset whose uri is an external URL. -/
def asset2 : PreparedAsset :=
  { asset1 with asset_id := "a2", uri := "http://example.com/vid" }

/-- A server state holding both assets; the media file of asset1 is absent
(only an unrelated file exists), the external file of asset2 obviously so. -/
def st1 : ServerState :=
  { fs := [("/assets/other", [7])], catalog := [asset1, asset2], channel := [] }

def stEmpty : ServerState := { fs := [], catalog := [], channel := [] }

/-! ## C1 -/

/-- Claim C1: for every asset, the derived is_active flag is true exactly
when is_enabled is true and either no active window is set or the current
time lies within [start_date, end_date], endpoints included. -/
theorem C1_is_active_characterization (now : Int) (a : StoredAsset) :
    is_active now a = true ↔
      (a.is_enabled = true ∧
        (a.start_date = none ∨ a.end_date = none ∨
          ∃ s e, a.start_date = some s ∧ a.end_date = some e ∧
            s ≤ now ∧ now ≤ e)) := by
  cases a with
  | mk en sd ed =>
    cases en <;> cases sd <;> cases ed <;> simp [is_active]

/-! ## C2 -/

/-- The upload state after submitting the second chunk first: the two-byte
chunk [2,2] declared at offset 2 arrives before the file exists. -/
def c2OutOfOrder : FS :=
  (fileAssetPost env0
    ((fileAssetPost env0 [] "f" [2, 2] (some "bytes 2-3/4")).2)
    "f" [1, 1] (some "bytes 0-1/4")).2

/-- The upload state after submitting the chunks in order: [1,1] first with
no Content-Range header, then [2,2] declared at offset 2. -/
def c2InOrder : FS :=
  (fileAssetPost env0
    ((fileAssetPost env0 [] "f" [1, 1] none).2)
    "f" [2, 2] (some "bytes 2-3/4")).2

/-- Claim C2, evaluated at the failing input: a first chunk without a range
header does create `<filename>.tmp` holding exactly the payload, and chunks
submitted in ascending order do concatenate; but because the handler opens
the temporary file in append mode, the seek to the declared offset has no
effect, so submitting chunk B (declared offset 2) before chunk A (declared
offset 0) produces B++A, not the claimed order-independent A++B. -/
theorem C2_upload_append_mode_eval :
    fsLookup ((fileAssetPost env0 [] "f" [1, 1] none).2) "/assets/f.tmp" =
      some [1, 1] ∧
    fsLookup c2InOrder "/assets/f.tmp" = some ([1, 1] ++ [2, 2]) ∧
    fsLookup c2OutOfOrder "/assets/f.tmp" = some [2, 2, 1, 1] ∧
    ([2, 2, 1, 1] : List Nat) ≠ [1, 1] ++ [2, 2] := by
  refine ⟨rfl, rfl, rfl, by decide⟩

/-! ## C4 -/

/-- Claim C4: a recovery upload whose declared content type is not a tar
archive is rejected with an error before any state mutation: the returned
server state (catalog storage, managed media directory, everything) is the
input state, untouched. -/
theorem C4_recover_rejects_nontar (env : Env) (st : ServerState)
    (filename : String) (content : List Nat)
    (h : guess_type filename ≠ some "application/x-tar") :
    recoverPost env st filename content =
      (Except.error "Incorrect file extension.", st) := by
  unfold recoverPost
  simp [h]

theorem C4_recover_rejects_nontar_witness :
    guess_type "backup.zip" ≠ some "application/x-tar" ∧
    recoverPost env0 st1 "backup.zip" [1, 2] =
      (Except.error "Incorrect file extension.", st1) :=
  ⟨by decide, C4_recover_rejects_nontar env0 st1 "backup.zip" [1, 2] (by decide)⟩

/-! ## C9 -/

/-- Claim C9: the playback-control handler forwards the command to the single
shared publisher channel and returns the fixed success response; its result
type admits no failure, so no delivery failure is ever reported, and nothing
else in the server state is touched. -/
theorem C9_control_fire_and_forget (command : String) (st : ServerState) :
    (assetsControlGet command st).1 = ("Asset switched", 200) ∧
    (assetsControlGet command st).2.channel = st.channel ++ [command] ∧
    (assetsControlGet command st).2.fs = st.fs ∧
    (assetsControlGet command st).2.catalog = st.catalog :=
  ⟨rfl, rfl, rfl, rfl⟩

/-! ## C7 -/

/-- Claim C7: a supplied start_date or end_date is parsed by the flexible
dateutil format and stored with its timezone information stripped; an absent
(or empty) one is stored as the explicit empty-string sentinel, a value of
its own rather than a null. -/
theorem C7_date_normalization (env : Env) (field : Option String) :
    (getS field = "" → dateStep env field = Except.ok DateField.blank) ∧
    (∀ d : PyDateTime, getS field ≠ "" → env.parse_date (getS field) = some d →
      dateStep env field = Except.ok (DateField.dt (stripTz d)) ∧
        (stripTz d).tz = none) := by
  constructor
  · intro h
    unfold dateStep
    simp [h]
  · intro d h1 h2
    unfold dateStep
    simp [h1, h2, stripTz]

theorem C7_date_normalization_witness :
    (dateStep env0 none = Except.ok DateField.blank) ∧
    (dateStep env0 (some "2017-02-02T00:33:00.000Z") =
        Except.ok (DateField.dt (stripTz ⟨2017, 2, 2, 0, 33, 0, some 0⟩)) ∧
      (stripTz ⟨2017, 2, 2, 0, 33, 0, some 0⟩).tz = none) :=
  ⟨(C7_date_normalization env0 none).1 rfl,
   (C7_date_normalization env0 (some "2017-02-02T00:33:00.000Z")).2
     ⟨2017, 2, 2, 0, 33, 0, some 0⟩ (by decide) (by decide)⟩

/-! ## C3 -/

lemma catalogRead_catalogDelete (l : List PreparedAsset) (aid : String) :
    catalogRead (catalogDelete l aid) aid = none := by
  unfold catalogRead catalogDelete
  induction l with
  | nil => rfl
  | cons x xs ih =>
    by_cases hx : x.asset_id = aid
    · simp [hx, ih]
    · simp [List.filter_cons, hx, List.find?, ih]

/-- Claim C3: deleting an existing asset always succeeds with an empty 204
response; the underlying media file is removed exactly when the asset uri
lies under the managed media directory (its path starts with the directory,
which an external URL never does), only that one entry is erased, and since
fsRemove on an absent path is the identity a missing file is not an error;
the record itself is always removed. -/
theorem C3_delete_semantics (env : Env) (st : ServerState) (aid : String)
    (a : PreparedAsset) (h : catalogRead st.catalog aid = some a) :
    (assetDelete env st aid).1 = Except.ok ("", 204) ∧
    (assetDelete env st aid).2.catalog = catalogDelete st.catalog aid ∧
    catalogRead (assetDelete env st aid).2.catalog aid = none ∧
    (assetDelete env st aid).2.fs =
      (if pyStartsWith a.uri env.assetdir then fsRemove st.fs a.uri else st.fs) := by
  unfold assetDelete
  rw [h]
  exact ⟨rfl, rfl, catalogRead_catalogDelete st.catalog aid, rfl⟩

theorem C3_delete_semantics_witness :
    ((assetDelete env0 st1 "a1").1 = Except.ok ("", 204) ∧
      (assetDelete env0 st1 "a1").2.catalog = catalogDelete st1.catalog "a1" ∧
      catalogRead (assetDelete env0 st1 "a1").2.catalog "a1" = none ∧
      (assetDelete env0 st1 "a1").2.fs =
        (if pyStartsWith asset1.uri env0.assetdir then fsRemove st1.fs asset1.uri
         else st1.fs)) ∧
    ((assetDelete env0 st1 "a2").1 = Except.ok ("", 204) ∧
      (assetDelete env0 st1 "a2").2.catalog = catalogDelete st1.catalog "a2" ∧
      catalogRead (assetDelete env0 st1 "a2").2.catalog "a2" = none ∧
      (assetDelete env0 st1 "a2").2.fs =
        (if pyStartsWith asset2.uri env0.assetdir then fsRemove st1.fs asset2.uri
         else st1.fs)) :=
  ⟨C3_delete_semantics env0 st1 "a1" asset1 (by decide),
   C3_delete_semantics env0 st1 "a2" asset2 (by decide)⟩

/-! ## C10 -/

lemma pyInt_error_msg (v : PyVal) (e : String) (h : pyInt v = Except.error e) :
    e = "ValueError: invalid literal for int()" := by
  cases v with
  | pint n => simp [pyInt] at h
  | pstr s =>
    unfold pyInt at h
    cases hp : parseIntStr s with
    | some n => simp [hp] at h
    | none =>
      simp [hp] at h
      exact h.symm

lemma durationStep_error_msg (env : Env) (mt uri : String) (d : Option PyVal)
    (d0 : Option Int) (e : String) (h : durationStep env mt uri d d0 = Except.error e) :
    e = "ValueError: invalid literal for int()" := by
  unfold durationStep at h
  by_cases hm : strContains mt "video" = true
  · rw [if_pos hm] at h
    by_cases hna : getV d = PyVal.pstr "N/A"
    · simp [hna] at h
    · rw [if_neg hna] at h
      cases hp : pyInt (getV d) with
      | error e2 =>
        rw [hp] at h
        cases h
        exact pyInt_error_msg _ _ hp
      | ok n =>
        rw [hp] at h
        by_cases hn0 : n = 0 <;> simp [hn0] at h
  · rw [if_neg hm] at h
    cases hp : pyInt (getV d) with
    | error e2 =>
      rw [hp] at h
      cases h
      exact pyInt_error_msg _ _ hp
    | ok n => rw [hp] at h; cases h

lemma dateStep_error_msg (env : Env) (f : Option String) (e : String)
    (h : dateStep env f = Except.error e) :
    e = "ValueError: unknown string format" := by
  unfold dateStep at h
  split at h
  · cases h
  · cases hp : env.parse_date (getS f) with
    | some d => rw [hp] at h; cases h
    | none => rw [hp] at h; cases h; rfl

/-- Any error raised by prepare_asset is the missing-fields message, an error
of the uri validation, or one of the two ValueError messages of the duration
and date parsing steps. -/
lemma prepare_error_msgs (env : Env) (fs : FS) (req : AssetRequest) (e : String)
    (h : (prepare_asset env fs req).1 = Except.error e) :
    e = "Not enough information provided. Please specify 'name', 'uri', and 'mimetype'." ∨
    validate_uri env fs (getS req.uri) = Except.error e ∨
    e = "ValueError: invalid literal for int()" ∨
    e = "ValueError: unknown string format" := by
  unfold prepare_asset at h
  split at h
  · cases h
    exact Or.inl rfl
  · split at h
    next e2 heq =>
      cases h
      exact Or.inr (Or.inl heq)
    next u heq =>
      dsimp only at h
      split at h
      next e2 hd =>
        cases h
        exact Or.inr (Or.inr (Or.inl (durationStep_error_msg _ _ _ _ _ _ hd)))
      next dur hd =>
        split at h
        next e2 hs =>
          cases h
          exact Or.inr (Or.inr (Or.inr (dateStep_error_msg _ _ _ hs)))
        next sd hs =>
          split at h
          next e2 he =>
            cases h
            exact Or.inr (Or.inr (Or.inr (dateStep_error_msg _ _ _ he)))
          next ed he => cases h

/-- Claim C10: during validation a uri is classified as a local file path
(and required to reference an existing file) exactly when it begins with a
slash; every other uri string, relative filesystem paths included, is
instead validated as a URL: it can never raise the local-file error, and it
raises the URL error when URL validation rejects it. -/
theorem C10_uri_classification (env : Env) (fs : FS) (req : AssetRequest)
    (hn : getS req.name ≠ "") (hu : getS req.uri ≠ "") (hm : getS req.mimetype ≠ "") :
    (pyStartsWith (getS req.uri) "/" = false →
      (prepare_asset env fs req).1 ≠ Except.error "Invalid file path. Failed to add asset." ∧
      (env.validate_url (getS req.uri) = false →
        (prepare_asset env fs req).1 = Except.error "Invalid URL. Failed to add asset.")) ∧
    (pyStartsWith (getS req.uri) "/" = true →
      (prepare_asset env fs req).1 ≠ Except.error "Invalid URL. Failed to add asset." ∧
      (fsIsFile fs (getS req.uri) = false →
        (prepare_asset env fs req).1 = Except.error "Invalid file path. Failed to add asset.")) := by
  constructor
  · intro hs
    constructor
    · intro hbad
      rcases prepare_error_msgs env fs req _ hbad with h1 | h2 | h3 | h4
      · exact absurd h1 (by decide)
      · unfold validate_uri at h2
        rw [hs] at h2
        simp only [Bool.false_eq_true, if_false] at h2
        split at h2
        · cases h2
        · exact absurd (Except.error.inj h2) (by decide)
      · exact absurd h3 (by decide)
      · exact absurd h4 (by decide)
    · intro hv
      have hval : validate_uri env fs (getS req.uri) =
          Except.error "Invalid URL. Failed to add asset." := by
        unfold validate_uri
        rw [hs, hv]
        simp
      unfold prepare_asset
      split
      · next hx =>
          simp only [Bool.or_eq_true, decide_eq_true_eq] at hx
          rcases hx with (h | h) | h
          · exact absurd h hn
          · exact absurd h hu
          · exact absurd h hm
      · rw [hval]
  · intro hs
    constructor
    · intro hbad
      rcases prepare_error_msgs env fs req _ hbad with h1 | h2 | h3 | h4
      · exact absurd h1 (by decide)
      · unfold validate_uri at h2
        rw [hs] at h2
        simp only [if_true] at h2
        split at h2
        · cases h2
        · exact absurd (Except.error.inj h2) (by decide)
      · exact absurd h3 (by decide)
      · exact absurd h4 (by decide)
    · intro hfile
      have hval : validate_uri env fs (getS req.uri) =
          Except.error "Invalid file path. Failed to add asset." := by
        unfold validate_uri
        rw [hs, hfile]
        simp
      unfold prepare_asset
      split
      · next hx =>
          simp only [Bool.or_eq_true, decide_eq_true_eq] at hx
          rcases hx with (h | h) | h
          · exact absurd h hn
          · exact absurd h hu
          · exact absurd h hm
      · rw [hval]

/-- An environment whose URL validation rejects everything. -/
def env1 : Env :=
  { env0 with validate_url := fun _ => false }

/-- A request whose uri is a relative filesystem path. -/
def reqRel : AssetRequest :=
  { name := some "n", uri := some "foo/bar.png", mimetype := some "image",
    asset_id := some "aid1", is_enabled := none, is_processing := none,
    nocache := none, duration := some (PyVal.pstr "3"),
    start_date := none, end_date := none }

/-- A request whose uri is an absolute path that exists on no filesystem. -/
def reqAbs : AssetRequest :=
  { reqRel with uri := some "/missing" }

theorem C10_uri_classification_witness :
    (prepare_asset env1 [] reqRel).1 = Except.error "Invalid URL. Failed to add asset." ∧
    (prepare_asset env1 [] reqAbs).1 = Except.error "Invalid file path. Failed to add asset." :=
  ⟨((C10_uri_classification env1 [] reqRel (by decide) (by decide) (by decide)).1
      (by decide)).2 rfl,
   ((C10_uri_classification env1 [] reqAbs (by decide) (by decide) (by decide)).2
      (by decide)).2 rfl⟩

/-! ## C8 -/

lemma digitChar_mod16_hex (m : Nat) : isHexCharB (Nat.digitChar (m % 16)) = true := by
  have h16 : m % 16 = 0 ∨ m % 16 = 1 ∨ m % 16 = 2 ∨ m % 16 = 3 ∨ m % 16 = 4 ∨
      m % 16 = 5 ∨ m % 16 = 6 ∨ m % 16 = 7 ∨ m % 16 = 8 ∨ m % 16 = 9 ∨
      m % 16 = 10 ∨ m % 16 = 11 ∨ m % 16 = 12 ∨ m % 16 = 13 ∨ m % 16 = 14 ∨
      m % 16 = 15 := by omega
  rcases h16 with h | h | h | h | h | h | h | h | h | h | h | h | h | h | h | h <;>
    rw [h] <;> decide

lemma uuidHex_length (n : Nat) : (uuidHex n).length = 32 := by
  simp [uuidHex, String.length]

lemma uuidHex_all_hex (n : Nat) : (uuidHex n).data.all isHexCharB = true := by
  show ((List.range 32).map (fun i => Nat.digitChar (n / 16 ^ (31 - i) % 16))).all
    isHexCharB = true
  rw [List.all_eq_true]
  intro c hc
  rw [List.mem_map] at hc
  obtain ⟨i, _, rfl⟩ := hc
  exact digitChar_mod16_hex _

/-- Claim C8: when a create request supplies no asset_id and prepare_asset
succeeds (outside the youtube branch, which rewrites the uri), the record
carries a server-assigned asset_id: the uuid4 value hex-encoded as exactly
32 hex characters (128 bits); and when the request uri is a local path, the
underlying file is renamed into the managed media directory under that new
id and the stored uri becomes that managed path. -/
theorem C8_fresh_asset_id (env : Env) (fs : FS) (req : AssetRequest)
    (a : PreparedAsset) (fs1 : FS)
    (hok : prepare_asset env fs req = (Except.ok a, fs1))
    (hid : getS req.asset_id = "")
    (hyt : strContains (getS req.mimetype) "youtube_asset" = false) :
    a.asset_id = uuidHex env.fresh_uuid ∧
    (uuidHex env.fresh_uuid).length = 32 ∧
    (uuidHex env.fresh_uuid).data.all isHexCharB = true ∧
    (pyStartsWith (getS req.uri) "/" = true →
      a.uri = pyPathJoin env.assetdir (uuidHex env.fresh_uuid) ∧
      fs1 = fsRename fs (getS req.uri) (pyPathJoin env.assetdir (uuidHex env.fresh_uuid))) := by
  unfold prepare_asset at hok
  split at hok
  · simp at hok
  · split at hok
    next e heq => simp at hok
    next u heq =>
      dsimp only at hok
      rw [hid, hyt] at hok
      simp only [Bool.false_eq_true, if_false] at hok
      unfold assign_asset_id at hok
      simp only [if_pos rfl] at hok
      by_cases hsw : pyStartsWith (getS req.uri) "/" = true
      · rw [hsw] at hok
        simp only [if_true] at hok
        split at hok
        next e hd => simp at hok
        next dur hd =>
          split at hok
          next e hs => simp at hok
          next sd hs =>
            split at hok
            next e he => simp at hok
            next ed he =>
              rw [Prod.mk.injEq] at hok
              obtain ⟨hok1, hok2⟩ := hok
              cases hok1
              exact ⟨rfl, uuidHex_length _, uuidHex_all_hex _,
                fun _ => ⟨rfl, hok2.symm⟩⟩
      · rw [Bool.not_eq_true] at hsw
        rw [hsw] at hok
        simp only [Bool.false_eq_true, if_false] at hok
        split at hok
        next e hd => simp at hok
        next dur hd =>
          split at hok
          next e hs => simp at hok
          next sd hs =>
            split at hok
            next e he => simp at hok
            next ed he =>
              rw [Prod.mk.injEq] at hok
              obtain ⟨hok1, hok2⟩ := hok
              cases hok1
              refine ⟨rfl, uuidHex_length _, uuidHex_all_hex _, fun hcon => ?_⟩
              rw [hsw] at hcon
              cases hcon

/-- A create request with a local uri and no asset_id. -/
def reqC8 : AssetRequest :=
  { name := some "n", uri := some "/tmp/up", mimetype := some "image",
    asset_id := none, is_enabled := none, is_processing := none,
    nocache := none, duration := some (PyVal.pstr "3"),
    start_date := none, end_date := none }

def fsC8 : FS := [("/tmp/up", [9, 9])]

/-- The record prepare_asset produces for reqC8 under env0. -/
def assetC8 : PreparedAsset :=
  { name := "n", mimetype := "image", asset_id := uuidHex 0,
    uri := pyPathJoin "/assets" (uuidHex 0), is_enabled := PyVal.pstr "",
    is_processing := PyVal.pstr "", nocache := PyVal.pstr "",
    duration := some 3, start_date := DateField.blank, end_date := DateField.blank }

def fsC8out : FS := fsRename fsC8 "/tmp/up" (pyPathJoin "/assets" (uuidHex 0))

theorem C8_fresh_asset_id_witness :
    assetC8.asset_id = uuidHex env0.fresh_uuid ∧
    (uuidHex env0.fresh_uuid).length = 32 ∧
    (uuidHex env0.fresh_uuid).data.all isHexCharB = true ∧
    (pyStartsWith (getS reqC8.uri) "/" = true →
      assetC8.uri = pyPathJoin env0.assetdir (uuidHex env0.fresh_uuid) ∧
      fsC8out = fsRename fsC8 (getS reqC8.uri)
        (pyPathJoin env0.assetdir (uuidHex env0.fresh_uuid))) :=
  C8_fresh_asset_id env0 fsC8 reqC8 assetC8 fsC8out rfl rfl rfl

/-! ## C5 -/

/-- A video create request whose caller duration parses to the negative
integer -5. -/
def reqC5 : AssetRequest :=
  { name := some "vid", uri := some "http://v", mimetype := some "video",
    asset_id := some "aid1", is_enabled := none, is_processing := none,
    nocache := none, duration := some (PyVal.pstr "-5"),
    start_date := none, end_date := none }

/-- The duration field of a prepared asset, when preparation succeeded. -/
def preparedDuration : Except String PreparedAsset → Option (Option Int)
  | Except.ok a => some a.duration
  | Except.error _ => none

/-- Counterexample to claim C5: for a video request whose duration "-5"
parses to a non-positive integer, the claim demands the probed duration
(here 7 seconds) be stored; instead prepare_asset succeeds with no duration
assigned at all (the video branch only writes the key when it probes). -/
theorem C5_counterexample :
    preparedDuration (prepare_asset env0 [] reqC5).1 = some none ∧
    videoProbeSeconds env0 (getS reqC5.uri) = 7 ∧
    (some (some (7 : Int)) : Option (Option Int)) ≠ some none :=
  ⟨rfl, rfl, by decide⟩

/-- Claim C5 as amended: for a video mimetype (with no youtube rewrite, so
the dictionary holds no prior duration), the media file is probed — with the
result rounded down to whole seconds — exactly when the caller duration is
the sentinel N/A or parses by int() to 0; a duration that fails int()
(including a missing one, which reads as the empty string) raises that
ValueError instead; and any other parsed value leaves the duration key
unset rather than storing the caller value. -/
theorem C5_duration_policy (env : Env) (mt uri : String) (dreq : Option PyVal)
    (hvid : strContains mt "video" = true) :
    (getV dreq = PyVal.pstr "N/A" →
      durationStep env mt uri dreq none =
        Except.ok (some (videoProbeSeconds env uri))) ∧
    (∀ n : Int, getV dreq ≠ PyVal.pstr "N/A" → pyInt (getV dreq) = Except.ok n →
      durationStep env mt uri dreq none =
        Except.ok (if n = 0 then some (videoProbeSeconds env uri) else none)) ∧
    (∀ e : String, getV dreq ≠ PyVal.pstr "N/A" → pyInt (getV dreq) = Except.error e →
      durationStep env mt uri dreq none = Except.error e) := by
  refine ⟨?_, ?_, ?_⟩
  · intro h
    unfold durationStep
    rw [hvid]
    simp [h]
  · intro n hna hok
    unfold durationStep
    rw [hvid]
    simp only [if_true]
    rw [if_neg hna, hok]
    by_cases hn : n = 0 <;> simp [hn]
  · intro e hna herr
    unfold durationStep
    rw [hvid]
    simp only [if_true]
    rw [if_neg hna, herr]

theorem C5_duration_policy_witness :
    durationStep env0 "video" "u" (some (PyVal.pstr "0")) none =
      Except.ok (if (0 : Int) = 0 then some (videoProbeSeconds env0 "u") else none) ∧
    videoProbeSeconds env0 "u" = 7 :=
  ⟨(C5_duration_policy env0 "video" "u" (some (PyVal.pstr "0")) (by decide)).2.1
      0 (by decide) rfl, rfl⟩

/-! ## C6 -/

/-- Following the amended claim: all three of name, uri and mimetype are
present (nonempty after trimming). -/
def fieldsPresentB (req : AssetRequest) : Bool :=
  !(decide (getS req.name = "") || decide (getS req.uri = "") ||
    decide (getS req.mimetype = ""))

/-- Following the amended claim: a local uri (leading slash) references an
existing file, and any other uri passes URL validation. -/
def uriAcceptableB (env : Env) (fs : FS) (uri : String) : Bool :=
  if pyStartsWith uri "/" then fsIsFile fs uri else env.validate_url uri

/-- The mimetype in effect after the youtube rewrite. -/
def effectiveMimetype (req : AssetRequest) : String :=
  if strContains (getS req.mimetype) "youtube_asset" then "video"
  else getS req.mimetype

/-- Following the amended claim: the caller duration is acceptable — for a
video mimetype it is the sentinel N/A or parses by int(); for any other
mimetype it parses by int(). -/
def durationAcceptableB (mt : String) (d : Option PyVal) : Bool :=
  if strContains mt "video" then
    decide (getV d = PyVal.pstr "N/A") || isOkB (pyInt (getV d))
  else isOkB (pyInt (getV d))

/-- Following the amended claim: a date field is absent or parses. -/
def dateAcceptableB (env : Env) (f : Option String) : Bool :=
  decide (getS f = "") || (env.parse_date (getS f)).isSome

/-- The uri the created record ends up with: the request uri, moved under
the managed directory when a fresh asset_id was assigned to a local path,
then rewritten by the youtube download when applicable. -/
def storedUri (env : Env) (req : AssetRequest) : String :=
  let uri0 := getS req.uri
  let aid := if getS req.asset_id = "" then uuidHex env.fresh_uuid
    else getS req.asset_id
  let uri1 := if decide (getS req.asset_id = "") && pyStartsWith uri0 "/" then
      pyPathJoin env.assetdir (uuidHex env.fresh_uuid)
    else uri0
  if strContains (getS req.mimetype) "youtube_asset" then
    (env.youtube uri1 aid).1
  else uri1

lemma validate_uri_isOkB (env : Env) (fs : FS) (uri : String) :
    isOkB (validate_uri env fs uri) = uriAcceptableB env fs uri := by
  unfold validate_uri uriAcceptableB
  by_cases h1 : pyStartsWith uri "/" = true
  · rw [h1]
    simp only [if_true]
    by_cases h2 : fsIsFile fs uri = true
    · simp [h2, isOkB]
    · rw [Bool.not_eq_true] at h2
      simp [h2, isOkB]
  · rw [Bool.not_eq_true] at h1
    rw [h1]
    simp only [Bool.false_eq_true, if_false]
    by_cases h2 : env.validate_url uri = true
    · simp [h2, isOkB]
    · rw [Bool.not_eq_true] at h2
      simp [h2, isOkB]

lemma durationStep_isOkB (env : Env) (mt uri : String) (d : Option PyVal)
    (d0 : Option Int) :
    isOkB (durationStep env mt uri d d0) = durationAcceptableB mt d := by
  unfold durationStep durationAcceptableB
  by_cases hm : strContains mt "video" = true
  · rw [hm]
    simp only [if_true]
    by_cases hna : getV d = PyVal.pstr "N/A"
    · simp [hna, isOkB]
    · rw [if_neg hna]
      cases hp : pyInt (getV d) with
      | error e => simp [hna, isOkB]
      | ok n =>
        by_cases hn : n = 0 <;> simp [hna, hn, isOkB]
  · rw [Bool.not_eq_true] at hm
    rw [hm]
    simp only [Bool.false_eq_true, if_false]
    cases hp : pyInt (getV d) with
    | error e => simp [isOkB]
    | ok n => simp [isOkB]

lemma dateStep_isOkB (env : Env) (f : Option String) :
    isOkB (dateStep env f) = dateAcceptableB env f := by
  unfold dateStep dateAcceptableB
  by_cases h : getS f = ""
  · simp [h, isOkB]
  · rw [if_neg h]
    cases hp : env.parse_date (getS f) with
    | none => simp [h, hp, isOkB]
    | some d => simp [h, hp, isOkB]

lemma assign_asset_id_uri (env : Env) (fs : FS) (aid0 uri : String) :
    (assign_asset_id env fs aid0 uri).2.1 =
      (if decide (aid0 = "") && pyStartsWith uri "/" then
        pyPathJoin env.assetdir (uuidHex env.fresh_uuid)
      else uri) := by
  unfold assign_asset_id
  by_cases h1 : aid0 = ""
  · by_cases h2 : pyStartsWith uri "/" = true <;> simp [h1, h2]
  · simp [h1]

lemma assign_asset_id_aid (env : Env) (fs : FS) (aid0 uri : String) :
    (assign_asset_id env fs aid0 uri).1 =
      (if aid0 = "" then uuidHex env.fresh_uuid else aid0) := by
  unfold assign_asset_id
  by_cases h1 : aid0 = ""
  · by_cases h2 : pyStartsWith uri "/" = true <;> simp [h1, h2]
  · simp [h1]

lemma prepare_isOkB (env : Env) (fs : FS) (req : AssetRequest) :
    isOkB (prepare_asset env fs req).1 =
      (fieldsPresentB req && uriAcceptableB env fs (getS req.uri) &&
       durationAcceptableB (effectiveMimetype req) req.duration &&
       dateAcceptableB env req.start_date && dateAcceptableB env req.end_date) := by
  unfold prepare_asset
  split
  next hx =>
    have hf : fieldsPresentB req = false := by
      unfold fieldsPresentB
      rw [hx]
      rfl
    simp [hf, isOkB]
  next hx =>
    have hf : fieldsPresentB req = true := by
      unfold fieldsPresentB
      cases hb : (decide (getS req.name = "") || decide (getS req.uri = "") ||
          decide (getS req.mimetype = "")) with
      | false => rfl
      | true => exact absurd hb hx
    cases hv : validate_uri env fs (getS req.uri) with
    | error e =>
      have hua : uriAcceptableB env fs (getS req.uri) = false := by
        rw [← validate_uri_isOkB, hv]
        rfl
      simp [hua, isOkB]
    | ok u =>
      have hua : uriAcceptableB env fs (getS req.uri) = true := by
        rw [← validate_uri_isOkB, hv]
        rfl
      dsimp only
      split
      next e hd =>
        have hda := congrArg isOkB hd
        rw [durationStep_isOkB] at hda
        have hda2 : durationAcceptableB (effectiveMimetype req) req.duration = false := by
          rw [effectiveMimetype]
          exact hda
        simp [hf, hua, hda2, isOkB]
      next dur hd =>
        have hda := congrArg isOkB hd
        rw [durationStep_isOkB] at hda
        have hda2 : durationAcceptableB (effectiveMimetype req) req.duration = true := by
          rw [effectiveMimetype]
          exact hda
        split
        next e hs =>
          have hsa := congrArg isOkB hs
          rw [dateStep_isOkB] at hsa
          have hsa2 : dateAcceptableB env req.start_date = false := hsa.trans rfl
          simp [hf, hua, hda2, hsa2, isOkB]
        next sd hs =>
          have hsa := congrArg isOkB hs
          rw [dateStep_isOkB] at hsa
          have hsa2 : dateAcceptableB env req.start_date = true := hsa.trans rfl
          split
          next e he =>
            have hea := congrArg isOkB he
            rw [dateStep_isOkB] at hea
            have hea2 : dateAcceptableB env req.end_date = false := hea.trans rfl
            simp [hf, hua, hda2, hsa2, hea2, isOkB]
          next ed he =>
            have hea := congrArg isOkB he
            rw [dateStep_isOkB] at hea
            have hea2 : dateAcceptableB env req.end_date = true := hea.trans rfl
            simp [hf, hua, hda2, hsa2, hea2, isOkB]

lemma prepare_ok_uri (env : Env) (fs : FS) (req : AssetRequest) (a : PreparedAsset)
    (fs1 : FS) (hok : prepare_asset env fs req = (Except.ok a, fs1)) :
    a.uri = storedUri env req := by
  unfold prepare_asset at hok
  split at hok
  · simp at hok
  · split at hok
    next e heq => simp at hok
    next u heq =>
      dsimp only at hok
      split at hok
      next e hd => simp at hok
      next dur hd =>
        split at hok
        next e hs => simp at hok
        next sd hs =>
          split at hok
          next e he => simp at hok
          next ed he =>
            rw [Prod.mk.injEq] at hok
            obtain ⟨hok1, hok2⟩ := hok
            cases hok1
            dsimp only
            unfold storedUri
            rw [assign_asset_id_uri, assign_asset_id_aid]

/-- Claim C6 as amended: create succeeds exactly when name, uri and mimetype
are present (nonempty after trimming), the uri is acceptable (an existing
file for a leading-slash path, URL validation otherwise), the duration is
acceptable for the effective mimetype (video: the sentinel N/A or an
int()-parseable value; otherwise: int()-parseable — a missing duration reads
as the empty string and fails), both date fields are absent or parseable,
and the liveness probe passes on the uri the record will store; exactly one
record is appended on success and none on failure. -/
theorem C6_create_characterization (env : Env) (st : ServerState)
    (req : AssetRequest) :
    isOkB (assetsPost env st req).1 =
      ((fieldsPresentB req && uriAcceptableB env st.fs (getS req.uri) &&
        durationAcceptableB (effectiveMimetype req) req.duration &&
        dateAcceptableB env req.start_date && dateAcceptableB env req.end_date) &&
       !(env.url_fails (storedUri env req))) ∧
    (assetsPost env st req).2.catalog =
      st.catalog ++ createdRecords (assetsPost env st req).1 := by
  unfold assetsPost
  cases hp : prepare_asset env st.fs req with
  | mk res fs1 =>
    cases res with
    | error e =>
      have hpo : isOkB (prepare_asset env st.fs req).1 = false := by
        rw [hp]
        rfl
      rw [prepare_isOkB] at hpo
      constructor
      · simp [hpo, isOkB]
      · simp [createdRecords]
    | ok a =>
      have hpo : isOkB (prepare_asset env st.fs req).1 = true := by
        rw [hp]
        rfl
      rw [prepare_isOkB] at hpo
      have hu : a.uri = storedUri env req := prepare_ok_uri env st.fs req a fs1 hp
      by_cases hf : env.url_fails a.uri = true
      · have hsf : env.url_fails (storedUri env req) = true := by rw [← hu]; exact hf
        simp [hf, hpo, hsf, isOkB, createdRecords]
      · rw [Bool.not_eq_true] at hf
        have hsf : env.url_fails (storedUri env req) = false := by rw [← hu]; exact hf
        simp [hf, hpo, hsf, isOkB, createdRecords]

/-- A create request with every condition of claim C6 satisfied — all three
required fields present, a remote uri that validates and is live — but no
duration supplied. -/
def reqC6 : AssetRequest :=
  { name := some "Website", uri := some "http://example.com",
    mimetype := some "webpage", asset_id := some "aid1", is_enabled := none,
    is_processing := none, nocache := none, duration := none,
    start_date := none, end_date := none }

/-- Counterexample to claim C6: this request triggers none of the claimed
failure conditions (fields present, uri remote, URL valid, liveness probe
passes), yet create fails — the missing duration reads as the empty string
and int() raises — so the failure conditions listed by the claim are not
exhaustive.  The state is untouched, so nothing is stored. -/
theorem C6_counterexample :
    getS reqC6.name ≠ "" ∧ getS reqC6.uri ≠ "" ∧ getS reqC6.mimetype ≠ "" ∧
    pyStartsWith (getS reqC6.uri) "/" = false ∧
    env0.validate_url (getS reqC6.uri) = true ∧
    env0.url_fails (getS reqC6.uri) = false ∧
    isOkB (assetsPost env0 stEmpty reqC6).1 = false ∧
    (assetsPost env0 stEmpty reqC6).2 = stEmpty :=
  ⟨by decide, by decide, by decide, by decide, rfl, rfl, rfl, rfl⟩
